import Mathlib

/-!
Verification development for the geo-resolution and analytics core of the
pest-detection service (source: `src/app.py`).

Modelling conventions:
* Python floats are modelled by rationals (`ℚ`); the decimal literals of the
  source are exact rationals, so the gazetteer and the bounding-box constants
  are represented exactly.
* The haversine distance `calculate_distance` evaluates transcendental
  functions on floats; it is kept abstract as a parameter
  `d : ℚ → ℚ → ℚ → ℚ → ℚ` of every definition that calls it.  All geo-resolver
  theorems are proved for every such distance function, hence in particular
  for the haversine.
* SQLite `DATETIME` values compared as strings are modelled by instants on a
  rational time line measured in days; formatting an instant with
  `strftime('%Y-%m-%d')` and comparing a full timestamp string against the
  resulting date string corresponds to comparing against the floor (midnight)
  of that instant, and SQLite `date(timestamp)` corresponds to `⌊timestamp⌋`.
* Python dictionaries (insertion ordered) are modelled by association lists.
-/

namespace FawDetect

/-- Uganda's approximate bounds, from `app.py`: the value `-1.5`. -/
def UGANDA_LAT_MIN : ℚ := mkRat (-3) 2

/-- Uganda's approximate bounds, from `app.py`: the value `4.2`. -/
def UGANDA_LAT_MAX : ℚ := mkRat 21 5

/-- Uganda's approximate bounds, from `app.py`: the value `29.5`. -/
def UGANDA_LON_MIN : ℚ := mkRat 59 2

/-- Uganda's approximate bounds, from `app.py`: the value `35.0`. -/
def UGANDA_LON_MAX : ℚ := 35

/-- `UGANDA_DISTRICT_COORDS` from `app.py`, in the dictionary's insertion
order (Python dictionaries iterate in insertion order). -/
def UGANDA_DISTRICT_COORDS : List (String × ℚ × ℚ) :=
  [("Kampala", 0.3476, 32.5825),
   ("Wakiso", 0.4033, 32.4617),
   ("Mukono", 0.3533, 32.7550),
   ("Jinja", 0.4250, 33.2033),
   ("Mbale", 1.0750, 34.1750),
   ("Mbarara", -0.6167, 30.6500),
   ("Gulu", 2.7833, 32.2833),
   ("Lira", 2.2500, 32.9000),
   ("Arua", 3.0167, 30.9000),
   ("Masaka", -0.3333, 31.7333),
   ("Kabale", -1.2500, 30.0000),
   ("Fort Portal", 0.6667, 30.2667),
   ("Hoima", 1.4333, 31.3500),
   ("Soroti", 1.7167, 33.6167),
   ("Tororo", 0.7083, 34.1750),
   ("Moroto", 2.5333, 34.6667),
   ("Kitgum", 3.2833, 32.8833),
   ("Kasese", 0.1833, 30.0833),
   ("Entebbe", 0.0500, 32.4633),
   ("Iganga", 0.6167, 33.4833),
   ("Mityana", 0.4167, 32.0333),
   ("Luwero", 0.8500, 32.4667),
   ("Masindi", 1.6750, 31.7150),
   ("Busia", 0.4667, 34.0833),
   ("Mubende", 0.5833, 31.3667),
   ("Ntungamo", -0.8833, 30.2667),
   ("Adjumani", 3.3667, 31.7833),
   ("Moyo", 3.6500, 31.7167),
   ("Nebbi", 2.4833, 31.0833),
   ("Apac", 1.9833, 32.5333),
   ("Kotido", 2.9833, 34.1333),
   ("Rukungiri", -0.8417, 29.9417),
   ("Bushenyi", -0.5333, 30.2167),
   ("Kiboga", 0.9167, 31.7667),
   ("Kibale", 0.8000, 30.7000),
   ("Kabarole", 0.6500, 30.2500),
   ("Kamuli", 0.9467, 33.1200),
   ("Pallisa", 1.1450, 33.7100),
   ("Kumi", 1.4600, 33.9367),
   ("Rakai", -0.7167, 31.5333)]

/-- The bounding-box containment test
`UGANDA_LAT_MIN <= latitude <= UGANDA_LAT_MAX and UGANDA_LON_MIN <= longitude <= UGANDA_LON_MAX`. -/
def inBoxP (lat lon : ℚ) : Prop :=
  UGANDA_LAT_MIN ≤ lat ∧ lat ≤ UGANDA_LAT_MAX ∧
  UGANDA_LON_MIN ≤ lon ∧ lon ≤ UGANDA_LON_MAX

instance inBoxP.decidable (lat lon : ℚ) : Decidable (inBoxP lat lon) := by
  unfold inBoxP
  infer_instance

/-- One step of the loop body of `get_district_from_coordinates`: the
accumulator is `(closest_district, min_distance)` where `min_distance = none`
models the initial value `float('inf')`; a strictly smaller distance replaces
the current minimum. -/
def districtStep (d : ℚ → ℚ → ℚ → ℚ → ℚ) (lat lon : ℚ)
    (acc : Option String × Option ℚ) (entry : String × ℚ × ℚ) :
    Option String × Option ℚ :=
  let dist := d lat lon entry.2.1 entry.2.2
  match acc.2 with
  | none => (some entry.1, some dist)
  | some m => if dist < m then (some entry.1, some dist) else acc

/-- The `for district, coords in ...items()` loop of
`get_district_from_coordinates`, over an arbitrary gazetteer list. -/
def districtScan (d : ℚ → ℚ → ℚ → ℚ → ℚ) (lat lon : ℚ)
    (gaz : List (String × ℚ × ℚ)) : Option String × Option ℚ :=
  gaz.foldl (districtStep d lat lon) (none, none)

/-- `get_district_from_coordinates`, parametrised by the gazetteer so that the
bounding-box short-circuit (no scan) can be stated for every gazetteer. -/
def getDistrictGeneric (d : ℚ → ℚ → ℚ → ℚ → ℚ)
    (gaz : List (String × ℚ × ℚ)) (latitude longitude : ℚ) : Option String :=
  if inBoxP latitude longitude then
    match districtScan d latitude longitude gaz with
    | (closest, some m) => if m ≤ 50 then closest else none
    | (_, none) => none
  else none

/-- `get_district_from_coordinates` from `app.py` (gazetteer fixed to
`UGANDA_DISTRICT_COORDS`). -/
def get_district_from_coordinates (d : ℚ → ℚ → ℚ → ℚ → ℚ)
    (latitude longitude : ℚ) : Option String :=
  getDistrictGeneric d UGANDA_DISTRICT_COORDS latitude longitude

/-- Name/distance pairs of a gazetteer, in enumeration order. -/
def gazPairs (d : ℚ → ℚ → ℚ → ℚ → ℚ) (lat lon : ℚ)
    (gaz : List (String × ℚ × ℚ)) : List (String × ℚ) :=
  gaz.map (fun e => (e.1, d lat lon e.2.1 e.2.2))

/-- Minimal second component of a nonempty name/distance list, phrased with a
starting pair. -/
def minSnd (b : String × ℚ) (l : List (String × ℚ)) : ℚ :=
  l.foldl (fun m p => min m p.2) b.2

/-- First pair achieving the running minimum (the value the source loop
tracks): a strictly smaller distance replaces the current best, so ties keep
the earlier entry. -/
def firstMin (b : String × ℚ) (l : List (String × ℚ)) : String × ℚ :=
  match l with
  | [] => b
  | p :: rest => firstMin (if p.2 < b.2 then p else b) rest

/-- `resolveDistrict` as the claim states it, over an arbitrary gazetteer:
outside the box, unresolved; inside the box, compute the distance to every
gazetteer entry, take the minimal distance, and if it is at most 50 km return
the name of the first entry (in enumeration order) achieving it, else
unresolved. -/
def resolveDistrictSpecG (d : ℚ → ℚ → ℚ → ℚ → ℚ)
    (gaz : List (String × ℚ × ℚ)) (latitude longitude : ℚ) : Option String :=
  if inBoxP latitude longitude then
    match gazPairs d latitude longitude gaz with
    | [] => none
    | q :: qs =>
      let m := minSnd q qs
      if m ≤ 50 then
        match (q :: qs).find? (fun p => decide (p.2 = m)) with
        | some p => some p.1
        | none => none
      else none
  else none

/-- `resolveDistrict` as the claim states it, over the fixed gazetteer. -/
def resolveDistrictSpec (d : ℚ → ℚ → ℚ → ℚ → ℚ)
    (latitude longitude : ℚ) : Option String :=
  resolveDistrictSpecG d UGANDA_DISTRICT_COORDS latitude longitude

/-- A concrete computable distance function (squared coordinate differences)
used only to instantiate theorems that hold for every distance function. -/
def sqDist (lat1 lon1 lat2 lon2 : ℚ) : ℚ :=
  (lat1 - lat2) ^ 2 + (lon1 - lon2) ^ 2

/-- A distance function that puts every gazetteer entry beyond the 50 km
threshold, used to instantiate theorems on the branch where resolution
fails. -/
def farDist : ℚ → ℚ → ℚ → ℚ → ℚ :=
  fun _ _ _ _ => 100

/-! ### The detection record store

A row of the `detections` table.  `result`, `confidence`, `class` and
`district` are nullable columns, so they are `Option`-valued; the program
itself only ever inserts non-null `latitude`, `longitude` and `timestamp`,
which are therefore modelled as non-optional.  Timestamps are instants in
seconds (SQLite `DATETIME` strings have second resolution, and comparing such
strings lexicographically is comparing the instants). -/

structure DetectionRow where
  id : ℕ
  resultText : Option String
  description : Option String
  confidence : Option ℚ
  cls : Option String
  latitude : ℚ
  longitude : ℚ
  district : Option String
  timestamp : ℤ
deriving DecidableEq

/-- Seconds per calendar day; `strftime` and `date()` truncate instants to
day boundaries. -/
def SECONDS_PER_DAY : ℤ := 86400

/-- Calendar day index of an instant (`date(timestamp)` /
`strftime('%Y-%m-%d')`), i.e. floor division by the day length. -/
def dayOf (t : ℤ) : ℤ :=
  t.fdiv SECONDS_PER_DAY

/-- The midnight instant starting the calendar day of `t`: comparing a full
timestamp string against the `'%Y-%m-%d'` formatting of `t` is comparing the
instant against this value. -/
def midnightOf (t : ℤ) : ℤ :=
  dayOf t * SECONDS_PER_DAY

/-! ### Classification mapper (`app.py` lines 190-204) -/

/-- Python's `str.lower()` on the character sequence (ASCII case folding). -/
def lowerChars (s : String) : List Char :=
  s.data.map Char.toLower

/-- Python's substring test `pat in text`. -/
def containsSub (pat : String) (text : List Char) : Bool :=
  decide (pat.data <:+: text)

/-- The classification mapping of `detect`: `detection_class` starts as
`'unknown'`; when the classifier output has a `result` field, the lowered
text is matched against the four substrings in priority order. -/
def classify (resultTextOpt : Option String) : String :=
  match resultTextOpt with
  | none => "unknown"
  | some t =>
    let result_text := lowerChars t
    if containsSub "larval damage" result_text then "fall-armyworm-larval-damage"
    else if containsSub "egg" result_text then "fall-armyworm-egg"
    else if containsSub "frass" result_text then "fall-armyworm-frass"
    else if containsSub "healthy" result_text then "healthy-maize"
    else "unknown"

/-- The five fixed class buckets, in the order the analytics code iterates
them. -/
def CLASS_BUCKETS : List String :=
  ["fall-armyworm-larval-damage", "fall-armyworm-egg", "fall-armyworm-frass",
   "healthy-maize", "unknown"]

/-! ### Ingestion (`/detect`, `app.py` lines 123-231)

The HTTP framing (file upload, form parsing into optional floats) is at the
boundary: the embedding takes the parsed optional coordinates, the form's
district string (`request.form.get('district', '')`, default empty), the
classifier collaborator's output, the fresh row id the store would assign,
and the insertion instant. -/

structure DetectorOutput where
  result : String
  description : String
  confidence : ℚ
  is_maize : Bool
deriving DecidableEq

inductive DetectResponse where
  /-- the 400 response demanding valid location data -/
  | locationError
  /-- the classifier's fields plus the derived class; `stored` carries
  `(id, latitude, longitude, district)` when a row was inserted -/
  | ok (result : String) (cls : String) (stored : Option (ℕ × ℚ × ℚ × String))
deriving DecidableEq

/-- District resolution inside `detect`: the form district is kept unless it
is empty, in which case `get_district_from_coordinates` fills it in when it
resolves to a truthy (nonempty) name. -/
def detectDistrict (d : ℚ → ℚ → ℚ → ℚ → ℚ) (la lo : ℚ)
    (districtForm : String) : String :=
  if districtForm = "" then
    match get_district_from_coordinates d la lo with
    | some dd => if dd = "" then districtForm else dd
    | none => districtForm
  else districtForm

/-- The core of the `detect` endpoint. -/
def detect (d : ℚ → ℚ → ℚ → ℚ → ℚ) (db : List DetectionRow) (freshId : ℕ)
    (ts : ℤ) (latitude longitude : Option ℚ) (districtForm : String)
    (output : DetectorOutput) : DetectResponse × List DetectionRow :=
  match latitude, longitude with
  | some la, some lo =>
    let district := detectDistrict d la lo districtForm
    if inBoxP la lo then
      let detection_class := classify (some output.result)
      if output.is_maize then
        (DetectResponse.ok output.result detection_class
            (some (freshId, la, lo, district)),
         db ++ [{ id := freshId, resultText := some output.result,
                  description := some output.description,
                  confidence := some output.confidence,
                  cls := some detection_class,
                  latitude := la, longitude := lo,
                  district := some district, timestamp := ts }])
      else (DetectResponse.ok output.result detection_class none, db)
    else (DetectResponse.locationError, db)
  | _, _ => (DetectResponse.locationError, db)

/-! ### Location update (`/update_location`, `app.py` lines 257-295) -/

inductive UpdateResponse where
  /-- the 400 `"Missing location data"` response -/
  | missingLocation
  /-- the 400 `"Coordinates outside Uganda"` response -/
  | outsideBounds
  /-- the 404 `"Detection not found"` response -/
  | notFound
  /-- the success response, carrying the stored district -/
  | success (district : String)
deriving DecidableEq

/-- District resolution inside `update_location`: a falsy (absent or empty)
caller district is replaced by the resolver's answer, or by the empty string
when the resolver is also unresolved. -/
def updateDistrict (d : ℚ → ℚ → ℚ → ℚ → ℚ) (la lo : ℚ)
    (district : Option String) : String :=
  match district with
  | some s =>
    if s = "" then (get_district_from_coordinates d la lo).getD "" else s
  | none => (get_district_from_coordinates d la lo).getD ""

/-- The core of the `update_location` endpoint.  Note the source's guard
`if not latitude or not longitude` uses Python truthiness: it also fires when
a coordinate is present but equal to `0.0`. -/
def update_location (d : ℚ → ℚ → ℚ → ℚ → ℚ) (db : List DetectionRow)
    (detection_id : ℕ) (latitude longitude : Option ℚ)
    (district : Option String) : UpdateResponse × List DetectionRow :=
  match latitude, longitude with
  | some la, some lo =>
    if la = 0 ∨ lo = 0 then (UpdateResponse.missingLocation, db)
    else if inBoxP la lo then
      let district2 := updateDistrict d la lo district
      let db2 := db.map (fun r =>
        if r.id = detection_id then
          { r with latitude := la, longitude := lo, district := some district2 }
        else r)
      if db.countP (fun r => decide (r.id = detection_id)) = 0 then
        (UpdateResponse.notFound, db2)
      else (UpdateResponse.success district2, db2)
    else (UpdateResponse.outsideBounds, db)
  | _, _ => (UpdateResponse.missingLocation, db)

/-! ### Analytics aggregation (`/api/analytics_data`, `app.py` lines 356-539) -/

/-- Bounding-box containment of a row (`latitude BETWEEN ? AND ? AND
longitude BETWEEN ? AND ?`). -/
def inBoxRow (r : DetectionRow) : Bool :=
  decide (inBoxP r.latitude r.longitude)

/-- The optional exact-match class filter; a falsy (absent or empty) request
value adds no condition (`if class_filter:`).  SQL `class = ?` is not
satisfied by a NULL class. -/
def classFilterOk (class_filter : Option String) (r : DetectionRow) : Bool :=
  match class_filter with
  | none => true
  | some s => if s = "" then true else decide (r.cls = some s)

/-- The optional exact-match district filter (same truthiness convention). -/
def districtFilterOk (district_filter : Option String) (r : DetectionRow) : Bool :=
  match district_filter with
  | none => true
  | some s => if s = "" then true else decide (r.district = some s)

/-- `timestamp >= datetime('now', '-days days')` and the bounding box: the
base query's conditions. -/
def matchesBase (now : ℤ) (days : ℕ) (r : DetectionRow) : Bool :=
  decide (now - (days : ℤ) * SECONDS_PER_DAY ≤ r.timestamp) && inBoxRow r

/-- The rows returned by the base query with the optional filters. -/
def filteredDetections (db : List DetectionRow) (now : ℤ) (days : ℕ)
    (class_filter district_filter : Option String) : List DetectionRow :=
  db.filter (fun r =>
    matchesBase now days r && classFilterOk class_filter r &&
      districtFilterOk district_filter r)

/-- One increment of the Python dictionary
`class_distribution[k] = class_distribution.get(k, 0) + 1` (insertion-ordered
association list). -/
def bump : List (String × ℕ) → String → List (String × ℕ)
  | [], k => [(k, 1)]
  | p :: rest, k => if p.1 = k then (p.1, p.2 + 1) :: rest else p :: bump rest k

/-- `detection['class'] or 'unknown'`: Python `or` replaces both a null and
an empty-string class by `'unknown'`. -/
def pyClassKey (cls : Option String) : String :=
  match cls with
  | none => "unknown"
  | some s => if s = "" then "unknown" else s

/-- `class_distribution` built over the filtered detections. -/
def classDistributionOf (dets : List DetectionRow) : List (String × ℕ) :=
  dets.foldl (fun acc r => bump acc (pyClassKey r.cls)) []

/-- The two trend queries: rows with `a <= timestamp < b` inside the
bounding box (no class/district filter, no days filter). -/
def weekCount (db : List DetectionRow) (a b : ℤ) : ℕ :=
  db.countP (fun r =>
    decide (a ≤ r.timestamp) && decide (r.timestamp < b) && inBoxRow r)

/-- The percent-change formula applied to the two weekly counts
(`recent_trend` before rounding). -/
def pctChange (last prev : ℕ) : ℚ :=
  if prev > 0 then (((last : ℚ) - (prev : ℚ)) / (prev : ℚ)) * 100
  else if last = 0 then 0 else 100

/-- `recentTrend` as the claim states it: percent change between the
half-open instant windows `[now-7d, now)` and `[now-14d, now-7d)`, restricted
to the bounding box only. -/
def recentTrendClaim (db : List DetectionRow) (now : ℤ) : ℚ :=
  pctChange
    (weekCount db (now - 7 * SECONDS_PER_DAY) now)
    (weekCount db (now - 14 * SECONDS_PER_DAY) (now - 7 * SECONDS_PER_DAY))

/-- `date_range`: the `days + 1` calendar days of
`[(start_date + timedelta(days=i)).strftime('%Y-%m-%d') for i in range(days + 1)]`
with `start_date = now - timedelta(days=days)`. -/
def dateRange (now : ℤ) (days : ℕ) : List ℤ :=
  (List.range (days + 1)).map (fun (i : ℕ) =>
    dayOf (now - (days : ℤ) * SECONDS_PER_DAY + (i : ℤ) * SECONDS_PER_DAY))

/-- The per-bucket condition of the daily queries: a named bucket matches
`class = ?`; the `unknown` bucket matches `class IS NULL OR class = "unknown"`. -/
def bucketCond (detection_class : String) (r : DetectionRow) : Bool :=
  if detection_class ≠ "unknown" then decide (r.cls = some detection_class)
  else decide (r.cls = none ∨ r.cls = some "unknown")

/-- One daily count query of the time series: `date(timestamp) = ?`, the
bounding box, the bucket condition, and the request's optional filters.
(The daily queries carry no `days` window condition.) -/
def dayCount (db : List DetectionRow)
    (class_filter district_filter : Option String)
    (detection_class : String) (date : ℤ) : ℕ :=
  db.countP (fun r =>
    decide (dayOf r.timestamp = date) && inBoxRow r &&
      bucketCond detection_class r && classFilterOk class_filter r &&
      districtFilterOk district_filter r)

/-- SQL `district IS NOT NULL AND district != ""`. -/
def hasDistrictRow (r : DetectionRow) : Bool :=
  match r.district with
  | some s => decide (s ≠ "")
  | none => false

/-- The aggregation outputs the claims are about (`infestation_rate` and the
per-district class breakdown are computed by the endpoint as well but no
claim mentions them, and the one-decimal rounding of `recent_trend` is
dropped).  `district_counts` is kept in grouping order; the source orders it
by descending count, which no claim depends on. -/
structure AnalyticsData where
  total_detections : ℕ
  districts_affected : ℕ
  class_distribution : List (String × ℕ)
  recent_trend : ℚ
  time_series_labels : List ℤ
  time_series_data : List (String × List ℕ)
  district_counts : List (String × ℕ)
deriving DecidableEq

/-- The core of the `/api/analytics_data` endpoint. -/
def api_analytics_data (db : List DetectionRow) (now : ℤ) (days : ℕ)
    (class_filter district_filter : Option String) : AnalyticsData :=
  let detections := filteredDetections db now days class_filter district_filter
  let last_week_count :=
    weekCount db (midnightOf (now - 7 * SECONDS_PER_DAY)) (midnightOf now)
  let previous_week_count :=
    weekCount db (midnightOf (now - 14 * SECONDS_PER_DAY))
      (midnightOf (now - 7 * SECONDS_PER_DAY))
  let date_range := dateRange now days
  let window := db.filter (fun r =>
    decide (now - (days : ℤ) * SECONDS_PER_DAY ≤ r.timestamp) && inBoxRow r &&
      hasDistrictRow r)
  { total_detections := detections.length
    districts_affected :=
      (((detections.filterMap (fun r => r.district)).filter
          (fun s => decide (s ≠ ""))).dedup).length
    class_distribution := classDistributionOf detections
    recent_trend :=
      if previous_week_count > 0 then
        (((last_week_count : ℚ) - (previous_week_count : ℚ)) /
            (previous_week_count : ℚ)) * 100
      else if last_week_count = 0 then 0 else 100
    time_series_labels := date_range
    time_series_data := CLASS_BUCKETS.map (fun c =>
      (c, date_range.map (fun dt =>
        dayCount db class_filter district_filter c dt)))
    district_counts :=
      ((window.filterMap (fun r => r.district)).dedup).map (fun dn =>
        (dn, window.countP (fun r => decide (r.district = some dn)))) }

/-- Sum of the counter values of an association list
(`sum(class_distribution.values())`). -/
def sumCounts (l : List (String × ℕ)) : ℕ :=
  (l.map (fun p => p.2)).sum

/-- Python `dict.get(k, 0)`. -/
def lookupCount (l : List (String × ℕ)) (k : String) : ℕ :=
  (l.lookup k).getD 0

/-! ### Concrete rows and inputs used by counterexamples and witnesses -/

/-- An in-box row stamped 6pm of calendar day `-1` (instant `-64800`),
classified healthy. -/
def rowYesterday : DetectionRow :=
  { id := 1, resultText := some "Healthy maize leaf", description := some "ok",
    confidence := some 1, cls := some "healthy-maize", latitude := 1,
    longitude := 32, district := some "Kampala", timestamp := -64800 }

/-- An in-box row stamped 6am of calendar day `0` (instant `21600`). -/
def rowToday : DetectionRow :=
  { id := 2, resultText := some "Healthy maize leaf", description := some "ok",
    confidence := some 1, cls := some "healthy-maize", latitude := 1,
    longitude := 32, district := some "Kampala", timestamp := 21600 }

/-- An in-box row from 6am of calendar day `0` whose district is the empty
string. -/
def rowEmptyDistrict : DetectionRow :=
  { rowYesterday with
    id := 3,
    district := some "",
    timestamp := 21600 }

/-- A classifier output that is the target crop. -/
def outMaize : DetectorOutput :=
  { result := "Healthy maize leaf", description := "ok", confidence := 1,
    is_maize := true }

/-- A classifier output that is not the target crop. -/
def outNotMaize : DetectorOutput :=
  { result := "Healthy maize leaf", description := "ok", confidence := 1,
    is_maize := false }

/-! ### Helper lemmas for the geo resolver -/

theorem firstMin_snd_le (l : List (String × ℚ)) : ∀ b : String × ℚ,
    (firstMin b l).2 ≤ b.2 := by
  induction l with
  | nil => intro b; simp [firstMin]
  | cons p rest ih =>
    intro b
    by_cases h : p.2 < b.2
    · simp only [firstMin, if_pos h]
      exact le_trans (ih p) (le_of_lt h)
    · simp only [firstMin, if_neg h]
      exact ih b

theorem firstMin_snd_eq_minSnd (l : List (String × ℚ)) : ∀ b : String × ℚ,
    (firstMin b l).2 = minSnd b l := by
  induction l with
  | nil => intro b; simp [firstMin, minSnd]
  | cons p rest ih =>
    intro b
    have hfold : minSnd b (p :: rest) = minSnd ⟨b.1, min b.2 p.2⟩ rest := by
      simp [minSnd]
    by_cases h : p.2 < b.2
    · rw [hfold]
      simp only [firstMin, if_pos h]
      rw [ih p, minSnd, minSnd, min_eq_right (le_of_lt h)]
    · rw [hfold]
      simp only [firstMin, if_neg h]
      rw [ih b, minSnd, minSnd, min_eq_left (le_of_not_lt h)]

theorem find?_firstMin (l : List (String × ℚ)) : ∀ b : String × ℚ,
    (b :: l).find? (fun p => decide (p.2 = (firstMin b l).2)) = some (firstMin b l) := by
  induction l with
  | nil =>
    intro b
    simp [firstMin, List.find?]
  | cons p rest ih =>
    intro b
    by_cases h : p.2 < b.2
    · simp only [firstMin, if_pos h]
      have hble : (firstMin p rest).2 ≤ p.2 := firstMin_snd_le rest p
      have hb : ¬ (b.2 = (firstMin p rest).2) := by
        intro he
        rw [he] at h
        exact absurd (lt_of_le_of_lt hble h) (lt_irrefl _)
      rw [List.find?_cons_of_neg _ (by simpa using hb)]
      exact ih p
    · simp only [firstMin, if_neg h]
      have hr := ih b
      by_cases hb : b.2 = (firstMin b rest).2
      · have hfb : (b :: rest).find? (fun q => decide (q.2 = (firstMin b rest).2)) = some b :=
          List.find?_cons_of_pos _ (by simpa using hb)
        have hbfm : b = firstMin b rest := by
          have := hfb.symm.trans hr
          exact Option.some.inj this
        rw [List.find?_cons_of_pos _ (by simpa using hb)]
        exact congrArg some hbfm
      · have hle : (firstMin b rest).2 ≤ b.2 := firstMin_snd_le rest b
        have hbp : b.2 ≤ p.2 := le_of_not_lt h
        have hp : ¬ (p.2 = (firstMin b rest).2) := by
          intro he
          apply hb
          have h1 : (firstMin b rest).2 ≤ b.2 := hle
          have h2 : b.2 ≤ (firstMin b rest).2 := he ▸ hbp
          exact le_antisymm h2 h1
        rw [List.find?_cons_of_neg _ (by simpa using hb),
            List.find?_cons_of_neg _ (by simpa using hp)]
        rw [List.find?_cons_of_neg _ (by simpa using hb)] at hr
        exact hr

theorem districtScan_foldl (d : ℚ → ℚ → ℚ → ℚ → ℚ) (lat lon : ℚ)
    (l : List (String × ℚ × ℚ)) : ∀ (n : String) (m : ℚ),
    l.foldl (districtStep d lat lon) (some n, some m) =
      (some (firstMin (n, m) (gazPairs d lat lon l)).1,
       some (firstMin (n, m) (gazPairs d lat lon l)).2) := by
  induction l with
  | nil => intro n m; simp [gazPairs, firstMin]
  | cons e rest ih =>
    intro n m
    simp only [List.foldl_cons, gazPairs, List.map_cons]
    by_cases h : d lat lon e.2.1 e.2.2 < m
    · have hstep : districtStep d lat lon (some n, some m) e =
          (some e.1, some (d lat lon e.2.1 e.2.2)) := by
        simp [districtStep, h]
      rw [hstep]
      have := ih e.1 (d lat lon e.2.1 e.2.2)
      simp only [gazPairs] at this
      rw [this]
      simp [firstMin, h, gazPairs]
    · have hstep : districtStep d lat lon (some n, some m) e = (some n, some m) := by
        simp [districtStep, h]
      rw [hstep]
      have := ih n m
      simp only [gazPairs] at this
      rw [this]
      simp [firstMin, h, gazPairs]

theorem getDistrictGeneric_eq_specG (d : ℚ → ℚ → ℚ → ℚ → ℚ)
    (gaz : List (String × ℚ × ℚ)) (lat lon : ℚ) :
    getDistrictGeneric d gaz lat lon = resolveDistrictSpecG d gaz lat lon := by
  unfold getDistrictGeneric resolveDistrictSpecG
  by_cases hbox : inBoxP lat lon
  · simp only [if_pos hbox]
    cases gaz with
    | nil => simp [districtScan, gazPairs]
    | cons e rest =>
      have h0 : districtScan d lat lon (e :: rest) =
          (some (firstMin (e.1, d lat lon e.2.1 e.2.2) (gazPairs d lat lon rest)).1,
           some (firstMin (e.1, d lat lon e.2.1 e.2.2) (gazPairs d lat lon rest)).2) := by
        simp only [districtScan, List.foldl_cons]
        have hstep : districtStep d lat lon (none, none) e =
            (some e.1, some (d lat lon e.2.1 e.2.2)) := rfl
        rw [hstep, districtScan_foldl]
      rw [h0]
      have hpairs : gazPairs d lat lon (e :: rest) =
          (e.1, d lat lon e.2.1 e.2.2) :: gazPairs d lat lon rest := by
        simp [gazPairs]
      rw [hpairs]
      have hm : minSnd (e.1, d lat lon e.2.1 e.2.2) (gazPairs d lat lon rest) =
          (firstMin (e.1, d lat lon e.2.1 e.2.2) (gazPairs d lat lon rest)).2 :=
        (firstMin_snd_eq_minSnd _ _).symm
      simp only [hm]
      have hf := find?_firstMin (gazPairs d lat lon rest) (e.1, d lat lon e.2.1 e.2.2)
      by_cases h50 : (firstMin (e.1, d lat lon e.2.1 e.2.2) (gazPairs d lat lon rest)).2 ≤ 50
      · simp only [if_pos h50, hf]
      · simp only [if_neg h50]
  · simp [hbox]

/-- C1: outside the bounding box `resolveDistrict` is unresolved without
scanning the gazetteer (for every gazetteer); inside the box it returns the
name of the gazetteer entry with minimal distance when that minimum is at most
50 km, ties resolving to the earliest entry in enumeration order, and is
unresolved when the minimum exceeds 50 km. -/
theorem C1_resolveDistrict_correct (d : ℚ → ℚ → ℚ → ℚ → ℚ) (lat lon : ℚ) :
    (¬ inBoxP lat lon → ∀ gaz, getDistrictGeneric d gaz lat lon = none) ∧
    get_district_from_coordinates d lat lon = resolveDistrictSpec d lat lon := by
  constructor
  · intro hbox gaz
    simp [getDistrictGeneric, hbox]
  · exact getDistrictGeneric_eq_specG d UGANDA_DISTRICT_COORDS lat lon

/-- Witness for C1 at a concrete out-of-box coordinate. -/
theorem C1_resolveDistrict_correct_witness :
    getDistrictGeneric sqDist [("Somewhere", 0, 0)] 100 0 = none :=
  (C1_resolveDistrict_correct sqDist 100 0).1 (by decide) [("Somewhere", 0, 0)]

/-! ### Classification mapper -/

/-- C2: `classify` is a total deterministic function of the optional result
text; it always lands in the fixed five-label enumeration, missing text maps
to `unknown`, and the four case-insensitive substring rules are tested in
fixed priority order with the first match winning. -/
theorem C2_classify_priority (t : Option String) (s : String) :
    classify t ∈ CLASS_BUCKETS ∧
    classify none = "unknown" ∧
    (containsSub "larval damage" (lowerChars s) = true →
      classify (some s) = "fall-armyworm-larval-damage") ∧
    (containsSub "larval damage" (lowerChars s) = false →
      containsSub "egg" (lowerChars s) = true →
      classify (some s) = "fall-armyworm-egg") ∧
    (containsSub "larval damage" (lowerChars s) = false →
      containsSub "egg" (lowerChars s) = false →
      containsSub "frass" (lowerChars s) = true →
      classify (some s) = "fall-armyworm-frass") ∧
    (containsSub "larval damage" (lowerChars s) = false →
      containsSub "egg" (lowerChars s) = false →
      containsSub "frass" (lowerChars s) = false →
      containsSub "healthy" (lowerChars s) = true →
      classify (some s) = "healthy-maize") ∧
    (containsSub "larval damage" (lowerChars s) = false →
      containsSub "egg" (lowerChars s) = false →
      containsSub "frass" (lowerChars s) = false →
      containsSub "healthy" (lowerChars s) = false →
      classify (some s) = "unknown") := by
  refine ⟨?_, rfl, ?_, ?_, ?_, ?_, ?_⟩
  · rcases t with _ | u
    · simp [classify, CLASS_BUCKETS]
    · simp only [classify]
      repeat' split
      all_goals simp [CLASS_BUCKETS]
  · intro h1
    simp [classify, h1]
  · intro h1 h2
    simp [classify, h1, h2]
  · intro h1 h2 h3
    simp [classify, h1, h2, h3]
  · intro h1 h2 h3 h4
    simp [classify, h1, h2, h3, h4]
  · intro h1 h2 h3 h4
    simp [classify, h1, h2, h3, h4]

/-- Witness for C2 at the spec's own example strings. -/
theorem C2_classify_priority_witness :
    classify (some "larval damage and egg present") = "fall-armyworm-larval-damage" ∧
    classify (some "Healthy maize leaf") = "healthy-maize" :=
  ⟨(C2_classify_priority none "larval damage and egg present").2.2.1 (by decide),
   (C2_classify_priority none "Healthy maize leaf").2.2.2.2.2.1
     (by decide) (by decide) (by decide) (by decide)⟩

/-! ### Location update -/

/-- C5 (code bug): a location update of an existing record with the in-box
coordinate pair `(0.0, 32.0)` is rejected as `"Missing location data"`,
because the source's guard `if not latitude or not longitude` treats the
float `0.0` as missing; the claim (and the error taxonomy, which reserves
`MissingInput` for absent coordinates) says such an update succeeds. -/
theorem C5_update_rejects_zero_latitude :
    update_location sqDist [rowYesterday] 1 (some 0) (some 32) none =
      (UpdateResponse.missingLocation, [rowYesterday]) ∧
    inBoxP 0 32 ∧
    rowYesterday.id = 1 := by
  refine ⟨by decide, by decide, rfl⟩

/-! ### Recent trend -/

/-- C3 (corrected): `recent_trend` uses day-truncated windows — the boundary
instants are formatted as `'%Y-%m-%d'` date strings, so the windows compare
against midnights of the boundary days, not against the instants `now-7d` and
`now` themselves — and it ignores the request's class/district filter and
`days` parameter. -/
theorem C3_recentTrend_corrected (db : List DetectionRow) (now : ℤ) (days : ℕ)
    (cf df cf2 df2 : Option String) (days2 : ℕ) :
    (api_analytics_data db now days cf df).recent_trend =
      pctChange
        (weekCount db (midnightOf (now - 7 * SECONDS_PER_DAY)) (midnightOf now))
        (weekCount db (midnightOf (now - 14 * SECONDS_PER_DAY))
          (midnightOf (now - 7 * SECONDS_PER_DAY))) ∧
    (api_analytics_data db now days cf df).recent_trend =
      (api_analytics_data db now days2 cf2 df2).recent_trend := by
  exact ⟨rfl, rfl⟩

/-- Counterexample to C3 as stated: with `now` at noon of day 0 and a single
in-box record from 6am the same day, the claim's `[now-7d, now)` window
contains the record (previous window empty), so the claim's formula yields
`100`; the code's date-truncated windows exclude it and yield `0`. -/
theorem C3_recentTrend_counterexample :
    (api_analytics_data [rowToday] 43200 30 none none).recent_trend = 0 ∧
    recentTrendClaim [rowToday] 43200 = 100 := by
  exact ⟨by decide, by decide⟩

/-! ### Ingestion persistence -/

/-- C6 (corrected): a record is appended iff the coordinates are present and
in-box and the classifier reports the target crop; with in-box coordinates
and `is_maize` false the detection result is returned and nothing is stored;
but with missing or out-of-box coordinates the endpoint returns the location
error — the detection result is NOT returned (the claim says it still is). -/
theorem C6_persist_iff_corrected (d : ℚ → ℚ → ℚ → ℚ → ℚ)
    (db : List DetectionRow) (freshId : ℕ) (ts : ℤ) (la lo : ℚ)
    (lat lon : Option ℚ) (districtForm : String) (out : DetectorOutput) :
    (inBoxP la lo → out.is_maize = true →
      detect d db freshId ts (some la) (some lo) districtForm out =
        (DetectResponse.ok out.result (classify (some out.result))
            (some (freshId, la, lo, detectDistrict d la lo districtForm)),
         db ++ [{ id := freshId, resultText := some out.result,
                  description := some out.description,
                  confidence := some out.confidence,
                  cls := some (classify (some out.result)),
                  latitude := la, longitude := lo,
                  district := some (detectDistrict d la lo districtForm),
                  timestamp := ts }])) ∧
    (inBoxP la lo → out.is_maize = false →
      detect d db freshId ts (some la) (some lo) districtForm out =
        (DetectResponse.ok out.result (classify (some out.result)) none, db)) ∧
    (¬ inBoxP la lo →
      detect d db freshId ts (some la) (some lo) districtForm out =
        (DetectResponse.locationError, db)) ∧
    detect d db freshId ts none lon districtForm out =
      (DetectResponse.locationError, db) ∧
    detect d db freshId ts lat none districtForm out =
      (DetectResponse.locationError, db) := by
  refine ⟨?_, ?_, ?_, ?_, ?_⟩
  · intro hbox hm
    simp [detect, hbox, hm]
  · intro hbox hm
    simp [detect, hbox, hm]
  · intro hbox
    simp [detect, hbox]
  · rfl
  · rcases lat with _ | la2 <;> rfl

/-- Counterexample to C6 as stated: an out-of-box target-crop detection is
answered with the location error, not with the detection result. -/
theorem C6_persist_counterexample :
    detect sqDist [] 1 0 (some 10) (some 10) "" outMaize =
      (DetectResponse.locationError, []) ∧
    outMaize.is_maize = true ∧ ¬ inBoxP 10 10 := by
  refine ⟨by decide, rfl, by decide⟩

/-- Witness for C6 on the in-box, non-target-crop branch. -/
theorem C6_persist_iff_corrected_witness :
    detect sqDist [] 1 0 (some 1) (some 32) "Kampala" outNotMaize =
      (DetectResponse.ok outNotMaize.result (classify (some outNotMaize.result))
        none, []) :=
  (C6_persist_iff_corrected sqDist [] 1 0 1 32 none none "Kampala"
    outNotMaize).2.1 (by decide) rfl

/-! ### Caller-supplied districts -/

theorem detectDistrict_of_ne (d : ℚ → ℚ → ℚ → ℚ → ℚ) (la lo : ℚ)
    (districtForm : String) (h : districtForm ≠ "") :
    detectDistrict d la lo districtForm = districtForm := by
  simp [detectDistrict, h]

theorem updateDistrict_of_ne (d : ℚ → ℚ → ℚ → ℚ → ℚ) (la lo : ℚ)
    (uds : String) (h : uds ≠ "") :
    updateDistrict d la lo (some uds) = uds := by
  simp [updateDistrict, h]

/-- C8: a nonempty caller-supplied district is stored exactly as supplied by
both the ingestion path and the location-update path — the statement holds
for every distance function `d`, so coordinate-based resolution cannot
influence it. -/
theorem C8_caller_district_preserved (d : ℚ → ℚ → ℚ → ℚ → ℚ)
    (db : List DetectionRow) (freshId : ℕ) (ts : ℤ) (la lo : ℚ)
    (districtForm : String) (out : DetectorOutput) (detection_id : ℕ)
    (uds s : String) :
    (districtForm ≠ "" →
      ∀ rw ∈ (detect d db freshId ts (some la) (some lo) districtForm out).2,
        rw ∈ db ∨ rw.district = some districtForm) ∧
    (uds ≠ "" →
      ∀ rw ∈ (update_location d db detection_id (some la) (some lo) (some uds)).2,
        rw ∈ db ∨ rw.district = some uds) ∧
    (uds ≠ "" →
      (update_location d db detection_id (some la) (some lo) (some uds)).1 =
        UpdateResponse.success s → s = uds) := by
  refine ⟨?_, ?_, ?_⟩
  · intro hne rw hrw
    by_cases hbox : inBoxP la lo
    · by_cases hm : out.is_maize = true
      · simp only [detect, if_pos hbox, hm, if_pos rfl] at hrw
        rcases List.mem_append.mp hrw with h | h
        · exact Or.inl h
        · right
          rcases List.mem_singleton.mp h with rfl
          simp [detectDistrict_of_ne d la lo districtForm hne]
      · rw [Bool.not_eq_true] at hm
        simp only [detect, if_pos hbox, hm] at hrw
        exact Or.inl (by simpa using hrw)
    · simp only [detect, if_neg hbox] at hrw
      exact Or.inl (by simpa using hrw)
  · intro hne rw hrw
    simp only [update_location] at hrw
    by_cases h0 : la = 0 ∨ lo = 0
    · rw [if_pos h0] at hrw
      exact Or.inl (by simpa using hrw)
    · rw [if_neg h0] at hrw
      by_cases hbox : inBoxP la lo
      · rw [if_pos hbox] at hrw
        by_cases hcnt : db.countP (fun r => decide (r.id = detection_id)) = 0 <;>
          simp only [if_pos, if_neg, hcnt, if_true, if_false] at hrw
        all_goals {
          rcases List.mem_map.mp (by simpa using hrw) with ⟨orig, horig, rfl⟩
          by_cases hid : orig.id = detection_id
          · right
            simp [hid, updateDistrict_of_ne d la lo uds hne]
          · left
            simpa [hid] using horig }
      · rw [if_neg hbox] at hrw
        exact Or.inl (by simpa using hrw)
  · intro hne hsucc
    simp only [update_location] at hsucc
    by_cases h0 : la = 0 ∨ lo = 0
    · rw [if_pos h0] at hsucc
      exact absurd hsucc (by simp)
    · rw [if_neg h0] at hsucc
      by_cases hbox : inBoxP la lo
      · rw [if_pos hbox] at hsucc
        by_cases hcnt : db.countP (fun r => decide (r.id = detection_id)) = 0
        · rw [if_pos hcnt] at hsucc
          exact absurd hsucc (by simp)
        · rw [if_neg hcnt] at hsucc
          have := (UpdateResponse.success.injEq _ _).mp (by simpa using hsucc)
          rw [← this, updateDistrict_of_ne d la lo uds hne]
      · rw [if_neg hbox] at hsucc
        exact absurd hsucc (by simp)

/-- Witness for C8 at concrete inputs on both paths. -/
theorem C8_caller_district_preserved_witness :
    (∀ rw ∈ (detect sqDist [] 1 0 (some 1) (some 32) "Mukono" outMaize).2,
      rw ∈ ([] : List DetectionRow) ∨ rw.district = some "Mukono") ∧
    (∀ rw ∈ (update_location sqDist [rowYesterday] 1 (some 1) (some 32)
        (some "Gulu")).2,
      rw ∈ [rowYesterday] ∨ rw.district = some "Gulu") :=
  ⟨(C8_caller_district_preserved sqDist [] 1 0 1 32 "Mukono" outMaize 1
      "Gulu" "Gulu").1 (by decide),
   (C8_caller_district_preserved sqDist [rowYesterday] 1 0 1 32 "Mukono"
      outMaize 1 "Gulu" "Gulu").2.1 (by decide)⟩

/-! ### Dictionary counting lemmas -/

theorem bump_sumCounts (acc : List (String × ℕ)) (k : String) :
    sumCounts (bump acc k) = sumCounts acc + 1 := by
  induction acc with
  | nil => simp [bump, sumCounts]
  | cons p rest ih =>
    by_cases h : p.1 = k
    · simp [bump, h, sumCounts]
      omega
    · simp only [bump, if_neg h, sumCounts, List.map_cons, List.sum_cons]
      have := ih
      simp only [sumCounts] at this
      omega

theorem foldl_bump_sumCounts (key : DetectionRow → String)
    (l : List DetectionRow) : ∀ acc : List (String × ℕ),
    sumCounts (l.foldl (fun a r => bump a (key r)) acc) =
      sumCounts acc + l.length := by
  induction l with
  | nil => intro acc; simp
  | cons r rest ih =>
    intro acc
    simp only [List.foldl_cons, List.length_cons]
    rw [ih, bump_sumCounts]
    omega

theorem lookupCount_cons (p : String × ℕ) (rest : List (String × ℕ))
    (k2 : String) :
    lookupCount (p :: rest) k2 =
      if k2 = p.1 then p.2 else lookupCount rest k2 := by
  by_cases h : k2 = p.1
  · have hb : (k2 == p.1) = true := beq_iff_eq.mpr h
    simp [lookupCount, List.lookup, hb, h]
  · have hb : (k2 == p.1) = false := beq_eq_false_iff_ne.mpr h
    simp [lookupCount, List.lookup, hb, h]

theorem bump_lookupCount (acc : List (String × ℕ)) (k k2 : String) :
    lookupCount (bump acc k) k2 =
      lookupCount acc k2 + (if k = k2 then 1 else 0) := by
  induction acc with
  | nil =>
    rcases eq_or_ne k2 k with rfl | h
    · simp only [bump]
      rw [lookupCount_cons]
      simp [lookupCount]
    · simp only [bump]
      rw [lookupCount_cons]
      simp [h, Ne.symm h, lookupCount]
  | cons p rest ih =>
    by_cases h : p.1 = k
    · simp only [bump, if_pos h]
      by_cases h2 : k2 = p.1
      · have hk : k = k2 := by rw [← h, h2]
        rw [lookupCount_cons, lookupCount_cons]
        simp [h2, hk]
      · have hk : k ≠ k2 := fun he => h2 (by rw [← he, ← h])
        rw [lookupCount_cons, lookupCount_cons]
        simp [h2, hk]
    · simp only [bump, if_neg h]
      by_cases h2 : k2 = p.1
      · have hk : k ≠ k2 := fun he => h ((he.trans h2).symm)
        have hk2 : ¬ k = p.1 := fun he => hk (he.trans h2.symm)
        rw [lookupCount_cons, lookupCount_cons]
        simp [h2, hk, hk2]
      · rw [lookupCount_cons, lookupCount_cons, if_neg h2, if_neg h2]
        exact ih

theorem foldl_bump_lookupCount (key : DetectionRow → String)
    (l : List DetectionRow) (k2 : String) : ∀ acc : List (String × ℕ),
    lookupCount (l.foldl (fun a r => bump a (key r)) acc) k2 =
      lookupCount acc k2 + l.countP (fun r => decide (key r = k2)) := by
  induction l with
  | nil => intro acc; simp
  | cons r rest ih =>
    intro acc
    simp only [List.foldl_cons, List.countP_cons]
    rw [ih, bump_lookupCount]
    by_cases h : key r = k2 <;> (simp [h]; try omega)

/-! ### Class distribution totals -/

/-- C7: for every analytics request the counter values of
`class_distribution` sum to `total_detections` — every matching record lands
in exactly one bucket — and the `unknown` bucket counts exactly the matching
records whose class label is null, empty, or the literal `"unknown"` (in
particular all null-or-`"unknown"`-labelled records). -/
theorem C7_classDistribution_sums (db : List DetectionRow) (now : ℤ)
    (days : ℕ) (cf df : Option String) :
    sumCounts (api_analytics_data db now days cf df).class_distribution =
      (api_analytics_data db now days cf df).total_detections ∧
    lookupCount (api_analytics_data db now days cf df).class_distribution
        "unknown" =
      (filteredDetections db now days cf df).countP
        (fun r => decide (r.cls = none ∨ r.cls = some "" ∨
          r.cls = some "unknown")) := by
  constructor
  · show sumCounts (classDistributionOf (filteredDetections db now days cf df)) =
      (filteredDetections db now days cf df).length
    rw [classDistributionOf, foldl_bump_sumCounts]
    simp [sumCounts]
  · show lookupCount
        (classDistributionOf (filteredDetections db now days cf df)) "unknown" = _
    rw [classDistributionOf, foldl_bump_lookupCount]
    have h0 : lookupCount [] "unknown" = 0 := rfl
    rw [h0, Nat.zero_add]
    apply List.countP_congr
    intro r _
    rcases hc : r.cls with _ | s
    · simp [pyClassKey, hc]
    · by_cases hs : s = "" <;> simp [pyClassKey, hc, hs]

/-! ### District string invariant -/

/-- C9: every row created by ingestion or rewritten by a location update has
a non-null (possibly empty) district string; when the caller supplied no
district (an empty form value on ingestion, an absent or empty value on
update) and coordinate resolution fails, the district stored is exactly the
empty string; and a row whose district is the empty string still counts
towards `total_detections` and the `class_distribution` total, while leaving
`districts_affected` and `district_counts` unchanged. -/
theorem C9_district_string_invariant (d : ℚ → ℚ → ℚ → ℚ → ℚ)
    (db : List DetectionRow) (freshId : ℕ) (ts : ℤ)
    (lat lon : Option ℚ) (districtForm : String) (out : DetectorOutput)
    (detection_id : ℕ) (udistrict : Option String)
    (now : ℤ) (days : ℕ) (r : DetectionRow) :
    (∀ rw ∈ (detect d db freshId ts lat lon districtForm out).2,
      rw ∈ db ∨ ∃ s, rw.district = some s) ∧
    (∀ rw ∈ (update_location d db detection_id lat lon udistrict).2,
      rw ∈ db ∨ ∃ s, rw.district = some s) ∧
    (∀ la lo, inBoxP la lo →
      get_district_from_coordinates d la lo = none →
      ∀ rw ∈ (detect d db freshId ts (some la) (some lo) "" out).2,
        rw ∈ db ∨ rw.district = some "") ∧
    (∀ la lo uds, ¬ (la = 0 ∨ lo = 0) → inBoxP la lo →
      (uds = none ∨ uds = some "") →
      get_district_from_coordinates d la lo = none →
      ∀ rw ∈ (update_location d db detection_id (some la) (some lo) uds).2,
        rw ∈ db ∨ rw.district = some "") ∧
    (r.district = some "" → matchesBase now days r = true →
      (api_analytics_data (db ++ [r]) now days none none).total_detections =
        (api_analytics_data db now days none none).total_detections + 1 ∧
      sumCounts (api_analytics_data (db ++ [r]) now days none none).class_distribution =
        sumCounts (api_analytics_data db now days none none).class_distribution + 1 ∧
      (api_analytics_data (db ++ [r]) now days none none).districts_affected =
        (api_analytics_data db now days none none).districts_affected ∧
      (api_analytics_data (db ++ [r]) now days none none).district_counts =
        (api_analytics_data db now days none none).district_counts) := by
  refine ⟨?_, ?_, ?_, ?_, ?_⟩
  · intro rw hrw
    rcases lat with _ | la
    · exact Or.inl (by simpa [detect] using hrw)
    rcases lon with _ | lo
    · exact Or.inl (by simpa [detect] using hrw)
    by_cases hbox : inBoxP la lo
    · by_cases hm : out.is_maize = true
      · simp only [detect, if_pos hbox, hm, if_pos rfl] at hrw
        rcases List.mem_append.mp hrw with h | h
        · exact Or.inl h
        · right
          rcases List.mem_singleton.mp h with rfl
          exact ⟨_, rfl⟩
      · rw [Bool.not_eq_true] at hm
        simp only [detect, if_pos hbox, hm] at hrw
        exact Or.inl (by simpa using hrw)
    · simp only [detect, if_neg hbox] at hrw
      exact Or.inl (by simpa using hrw)
  · intro rw hrw
    rcases lat with _ | la
    · exact Or.inl (by simpa [update_location] using hrw)
    rcases lon with _ | lo
    · exact Or.inl (by simpa [update_location] using hrw)
    simp only [update_location] at hrw
    by_cases h0 : la = 0 ∨ lo = 0
    · rw [if_pos h0] at hrw
      exact Or.inl (by simpa using hrw)
    · rw [if_neg h0] at hrw
      by_cases hbox : inBoxP la lo
      · rw [if_pos hbox] at hrw
        by_cases hcnt : db.countP (fun r2 => decide (r2.id = detection_id)) = 0 <;>
          simp only [if_pos, if_neg, hcnt, if_true, if_false] at hrw
        all_goals {
          rcases List.mem_map.mp (by simpa using hrw) with ⟨orig, horig, rfl⟩
          by_cases hid : orig.id = detection_id
          · right
            refine ⟨updateDistrict d la lo udistrict, ?_⟩
            simp [hid]
          · left
            simpa [hid] using horig }
      · rw [if_neg hbox] at hrw
        exact Or.inl (by simpa using hrw)
  · intro la lo hbox hres rw hrw
    by_cases hm : out.is_maize = true
    · simp only [detect, if_pos hbox, hm, if_pos rfl] at hrw
      rcases List.mem_append.mp hrw with h | h
      · exact Or.inl h
      · right
        rcases List.mem_singleton.mp h with rfl
        simp [detectDistrict, hres]
    · rw [Bool.not_eq_true] at hm
      simp only [detect, if_pos hbox, hm] at hrw
      exact Or.inl (by simpa using hrw)
  · intro la lo uds h0 hbox hud hres rw hrw
    simp only [update_location] at hrw
    rw [if_neg h0, if_pos hbox] at hrw
    have hempty : updateDistrict d la lo uds = "" := by
      rcases hud with rfl | rfl <;> simp [updateDistrict, hres]
    by_cases hcnt : db.countP (fun r2 => decide (r2.id = detection_id)) = 0 <;>
      simp only [if_pos, if_neg, hcnt, if_true, if_false] at hrw
    all_goals {
      rcases List.mem_map.mp (by simpa using hrw) with ⟨orig, horig, rfl⟩
      by_cases hid : orig.id = detection_id
      · right
        simp [hid, hempty]
      · left
        simpa [hid] using horig }
  · intro hdist hmatch
    have hfilter : ∀ cf df : Option String,
        filteredDetections (db ++ [r]) now days cf df =
          filteredDetections db now days cf df ++
            List.filter (fun r2 => matchesBase now days r2 && classFilterOk cf r2 &&
              districtFilterOk df r2) [r] := by
      intro cf df
      simp [filteredDetections, List.filter_append]
    have hrpass : List.filter (fun r2 => matchesBase now days r2 &&
        classFilterOk none r2 && districtFilterOk none r2) [r] = [r] := by
      simp [List.filter, hmatch, classFilterOk, districtFilterOk]
    refine ⟨?_, ?_, ?_, ?_⟩
    · show (filteredDetections (db ++ [r]) now days none none).length =
        (filteredDetections db now days none none).length + 1
      rw [hfilter none none, hrpass]
      simp
    · show sumCounts (classDistributionOf (filteredDetections (db ++ [r]) now days none none)) =
        sumCounts (classDistributionOf (filteredDetections db now days none none)) + 1
      rw [hfilter none none, hrpass, classDistributionOf, List.foldl_append,
        List.foldl_cons, List.foldl_nil]
      rw [show (List.foldl (fun a r2 => bump a (pyClassKey r2.cls))
        [] (filteredDetections db now days none none)) =
          classDistributionOf (filteredDetections db now days none none) from rfl]
      rw [bump_sumCounts]
    · show (((filteredDetections (db ++ [r]) now days none none).filterMap
          (fun r2 => r2.district)).filter (fun s => decide (s ≠ ""))).dedup.length =
        (((filteredDetections db now days none none).filterMap
          (fun r2 => r2.district)).filter (fun s => decide (s ≠ ""))).dedup.length
      rw [hfilter none none, hrpass]
      simp [List.filterMap_append, List.filter_append, hdist]
    · show ((((db ++ [r]).filter (fun r2 =>
            decide (now - (days : ℤ) * SECONDS_PER_DAY ≤ r2.timestamp) &&
              inBoxRow r2 && hasDistrictRow r2)).filterMap
          (fun r2 => r2.district)).dedup).map _ =
        (((db.filter (fun r2 =>
            decide (now - (days : ℤ) * SECONDS_PER_DAY ≤ r2.timestamp) &&
              inBoxRow r2 && hasDistrictRow r2)).filterMap
          (fun r2 => r2.district)).dedup).map _
      have : hasDistrictRow r = false := by
        simp [hasDistrictRow, hdist]
      rw [List.filter_append]
      simp [List.filter, this]

/-- Witness for C9: appending a matching row with an empty-string district to
a one-row store. -/
theorem C9_district_string_invariant_witness :
    (api_analytics_data ([rowToday] ++ [rowEmptyDistrict]) 43200 1 none
        none).total_detections =
      (api_analytics_data [rowToday] 43200 1 none none).total_detections + 1 ∧
    (api_analytics_data ([rowToday] ++ [rowEmptyDistrict]) 43200 1 none
        none).districts_affected =
      (api_analytics_data [rowToday] 43200 1 none none).districts_affected ∧
    (∀ rw ∈ (detect farDist [] 1 0 (some 1) (some 32) "" outMaize).2,
      rw ∈ ([] : List DetectionRow) ∨ rw.district = some "") ∧
    (∀ rw ∈ (update_location farDist [rowYesterday] 1 (some 1) (some 32)
        none).2,
      rw ∈ [rowYesterday] ∨ rw.district = some "") := by
  have h := C9_district_string_invariant farDist [rowToday] 1 0 none none ""
    outMaize 1 none 43200 1 rowEmptyDistrict
  have hcount := h.2.2.2.2 (by decide) (by decide)
  have hdet := (C9_district_string_invariant farDist [] 1 0 none none ""
    outMaize 1 none 43200 1 rowEmptyDistrict).2.2.1 1 32 (by decide) (by decide)
  have hupd := (C9_district_string_invariant farDist [rowYesterday] 1 0 none
    none "" outMaize 1 none 43200 1 rowEmptyDistrict).2.2.2.1 1 32 none
    (by decide) (by decide) (Or.inl rfl) (by decide)
  exact ⟨hcount.1, hcount.2.2.1, hdet, hupd⟩

/-! ### Time series -/

theorem time_series_lookup (db : List DetectionRow) (now : ℤ) (days : ℕ)
    (cf df : Option String) (c : String) (hc : c ∈ CLASS_BUCKETS) :
    (api_analytics_data db now days cf df).time_series_data.lookup c =
      some ((dateRange now days).map (dayCount db cf df c)) := by
  have hdata : (api_analytics_data db now days cf df).time_series_data =
      CLASS_BUCKETS.map (fun c2 =>
        (c2, (dateRange now days).map (fun dt => dayCount db cf df c2 dt))) := rfl
  rw [hdata]
  fin_cases hc <;> rfl

/-- C10: when the request carries a class filter equal to one of the four
named labels, every per-day entry of the `unknown` time-series bucket is `0`,
because the per-day query conjoins the null-or-`"unknown"` bucket condition
with the exact-match class filter. -/
theorem C10_unknown_series_zero (db : List DetectionRow) (now : ℤ)
    (days : ℕ) (df : Option String) (c : String)
    (hc : c ∈ ["fall-armyworm-larval-damage", "fall-armyworm-egg",
               "fall-armyworm-frass", "healthy-maize"]) :
    (api_analytics_data db now days (some c) df).time_series_data.lookup
        "unknown" =
      some (List.replicate (days + 1) 0) := by
  rw [time_series_lookup db now days (some c) df "unknown"
    (by simp [CLASS_BUCKETS])]
  have hcne : c ≠ "" ∧ c ≠ "unknown" := by
    fin_cases hc <;> exact ⟨by decide, by decide⟩
  have hzero : ∀ dt : ℤ, dayCount db (some c) df "unknown" dt = 0 := by
    intro dt
    apply List.countP_eq_zero.mpr
    intro r _
    intro hpred
    simp only [Bool.and_eq_true, decide_eq_true_eq] at hpred
    obtain ⟨⟨⟨⟨hday, hbox⟩, hbucket⟩, hfilter⟩, hdf⟩ := hpred
    simp only [bucketCond, if_neg (by simp : ¬ ("unknown" ≠ "unknown")),
      decide_eq_true_eq] at hbucket
    simp only [classFilterOk, if_neg hcne.1, decide_eq_true_eq] at hfilter
    rcases hbucket with h | h
    · rw [h] at hfilter
      exact Option.noConfusion hfilter
    · rw [h] at hfilter
      exact hcne.2 (Option.some.inj hfilter).symm
  have hmap : ((dateRange now days).map (dayCount db (some c) df "unknown")) =
      (dateRange now days).map (fun _ => 0) :=
    List.map_congr_left (fun dt _ => hzero dt)
  have hlen : (dateRange now days).length = days + 1 := by
    rw [dateRange, List.length_map, List.length_range]
  rw [hmap, List.map_const', hlen]

/-- Witness for C10 at a concrete store and filter. -/
theorem C10_unknown_series_zero_witness :
    (api_analytics_data [rowToday] 43200 0 (some "healthy-maize")
        none).time_series_data.lookup "unknown" =
      some (List.replicate 1 0) :=
  C10_unknown_series_zero [rowToday] 43200 0 none "healthy-maize" (by decide)

/-! ### Calendar arithmetic -/

theorem dayOf_add_mul (t k : ℤ) :
    dayOf (t + k * SECONDS_PER_DAY) = dayOf t + k := by
  unfold dayOf SECONDS_PER_DAY
  rw [Int.fdiv_eq_ediv _ (by norm_num), Int.fdiv_eq_ediv _ (by norm_num),
    Int.add_mul_ediv_right _ _ (by norm_num)]

theorem dateRange_eq (now : ℤ) (days : ℕ) :
    dateRange now days =
      (List.range (days + 1)).map (fun (i : ℕ) => dayOf now - days + (i : ℤ)) := by
  unfold dateRange
  apply List.map_congr_left
  intro i _
  have h : now - (days : ℤ) * SECONDS_PER_DAY + (i : ℤ) * SECONDS_PER_DAY =
      now + ((i : ℤ) - (days : ℤ)) * SECONDS_PER_DAY := by ring
  rw [h, dayOf_add_mul]
  ring

theorem mem_dateRange (now : ℤ) (days : ℕ) (dt : ℤ) :
    dt ∈ dateRange now days ↔ dayOf now - days ≤ dt ∧ dt ≤ dayOf now := by
  rw [dateRange_eq]
  simp only [List.mem_map, List.mem_range]
  constructor
  · rintro ⟨i, hi, rfl⟩
    omega
  · intro h
    exact ⟨(dt - (dayOf now - days)).toNat, by omega, by omega⟩

theorem dateRange_nodup (now : ℤ) (days : ℕ) : (dateRange now days).Nodup := by
  rw [dateRange_eq]
  refine List.Nodup.map ?_ (List.nodup_range _)
  intro a b hab
  have h2 : dayOf now - days + (a : ℤ) = dayOf now - days + (b : ℤ) := hab
  omega

/-! ### Summing daily counts -/

theorem countP_key_cons (db : List DetectionRow) (key : DetectionRow → ℤ)
    (p : DetectionRow → Bool) (dt : ℤ) (rest : List ℤ) (hdt : dt ∉ rest) :
    db.countP (fun r => decide (key r ∈ dt :: rest) && p r) =
      db.countP (fun r => decide (key r = dt) && p r) +
        db.countP (fun r => decide (key r ∈ rest) && p r) := by
  induction db with
  | nil => simp
  | cons r l ih =>
    simp only [List.countP_cons]
    rw [ih]
    by_cases h1 : key r = dt
    · have h2 : ¬ (key r ∈ rest) := by rw [h1]; exact hdt
      have e1 : (decide (key r ∈ dt :: rest) && p r) = p r := by
        simp [List.mem_cons, h1]
      have e2 : (decide (key r = dt) && p r) = p r := by
        simp [h1]
      have e3 : (decide (key r ∈ rest) && p r) = false := by
        simp [h2]
      rw [e1, e2, e3]
      cases hp : p r <;> (simp; try omega)
    · have e2 : (decide (key r = dt) && p r) = false := by
        simp [h1]
      by_cases h2 : key r ∈ rest
      · have e1 : (decide (key r ∈ dt :: rest) && p r) = p r := by
          simp [List.mem_cons, h2]
        have e3 : (decide (key r ∈ rest) && p r) = p r := by
          simp [h2]
        rw [e1, e2, e3]
        cases hp : p r <;> (simp; try omega)
      · have e1 : (decide (key r ∈ dt :: rest) && p r) = false := by
          simp [List.mem_cons, h1, h2]
        have e3 : (decide (key r ∈ rest) && p r) = false := by
          simp [h2]
        rw [e1, e2, e3]
        simp

theorem sum_map_countP (labels : List ℤ) (db : List DetectionRow)
    (key : DetectionRow → ℤ) (p : DetectionRow → Bool) (h : labels.Nodup) :
    (labels.map (fun dt =>
      db.countP (fun r => decide (key r = dt) && p r))).sum =
      db.countP (fun r => decide (key r ∈ labels) && p r) := by
  induction labels with
  | nil => simp
  | cons dt rest ih =>
    rcases List.nodup_cons.mp h with ⟨hdt, hrest⟩
    simp only [List.map_cons, List.sum_cons]
    rw [ih hrest, countP_key_cons db key p dt rest hdt]

/-- The bucket condition of the daily queries agrees with the class key used
by `class_distribution`, for each of the five buckets, on rows whose class is
not the empty string. -/
theorem bucketCond_eq_key (c : String) (hc : c ∈ CLASS_BUCKETS)
    (r : DetectionRow) (h2 : r.cls ≠ some "") :
    (bucketCond c r = true ↔ pyClassKey r.cls = c) := by
  fin_cases hc <;>
  · rcases hcl : r.cls with _ | s
    · simp [bucketCond, pyClassKey, hcl]
    · rw [hcl] at h2
      have hs : s ≠ "" := fun he => h2 (by rw [he])
      simp [bucketCond, pyClassKey, hcl, hs]

/-- C4 (corrected): the time-series labels are the `days + 1` calendar days
ending today, oldest first; the per-day, per-class counts respect the
request's optional class/district filter (they equal the unfiltered counts
over the pre-filtered store); and, when no filter is given, the sum of a
class's series equals that class's `class_distribution` count PROVIDED no
record's class is the empty string and every record's timestamp lies in the
instant window `[now - N days, ...)` exactly when its calendar day lies among
the label days — the code cuts `class_distribution` at the instant
`now - N days` but buckets the series by whole calendar days, so records in
the fringe `[midnight of day(now) - N days, now - N days)` (or after the end
of today) break the equality. -/
theorem C4_timeSeries_corrected (db : List DetectionRow) (now : ℤ)
    (days : ℕ) (cf df : Option String)
    (H1 : ∀ r ∈ db,
      ((dayOf now - days ≤ dayOf r.timestamp ∧ dayOf r.timestamp ≤ dayOf now) ↔
        now - (days : ℤ) * SECONDS_PER_DAY ≤ r.timestamp))
    (H2 : ∀ r ∈ db, r.cls ≠ some "") :
    (api_analytics_data db now days cf df).time_series_labels.length =
      days + 1 ∧
    (api_analytics_data db now days cf df).time_series_labels =
      (List.range (days + 1)).map (fun (i : ℕ) => dayOf now - days + (i : ℤ)) ∧
    (∀ c dt, dayCount db cf df c dt =
      dayCount (db.filter (fun r => classFilterOk cf r && districtFilterOk df r))
        none none c dt) ∧
    (∀ c ∈ CLASS_BUCKETS,
      (((api_analytics_data db now days none none).time_series_data.lookup
          c).getD []).sum =
        lookupCount
          (api_analytics_data db now days none none).class_distribution c) := by
  refine ⟨?_, ?_, ?_, ?_⟩
  · show (dateRange now days).length = days + 1
    rw [dateRange_eq, List.length_map, List.length_range]
  · exact dateRange_eq now days
  · intro c dt
    rw [dayCount, dayCount, List.countP_filter]
    apply List.countP_congr
    intro r _
    simp only [classFilterOk, districtFilterOk, Bool.and_true,
      Bool.and_eq_true, decide_eq_true_eq]
    tauto
  · intro c hc
    rw [time_series_lookup db now days none none c hc, Option.getD_some]
    have hshape : ((dateRange now days).map (dayCount db none none c)) =
        (dateRange now days).map (fun dt =>
          db.countP (fun r => decide (dayOf r.timestamp = dt) &&
            (inBoxRow r && bucketCond c r))) := by
      apply List.map_congr_left
      intro dt _
      rw [dayCount]
      apply List.countP_congr
      intro r _
      simp only [classFilterOk, districtFilterOk, Bool.and_true,
        Bool.and_eq_true, decide_eq_true_eq]
      tauto
    rw [hshape, sum_map_countP _ db _ _ (dateRange_nodup now days)]
    rw [show (api_analytics_data db now days none none).class_distribution =
      classDistributionOf (filteredDetections db now days none none) from rfl]
    rw [classDistributionOf, foldl_bump_lookupCount,
      show lookupCount [] c = 0 from rfl, Nat.zero_add]
    rw [filteredDetections, List.countP_filter]
    apply List.countP_congr
    intro r hr
    have h1 := H1 r hr
    have h2 := bucketCond_eq_key c hc r (H2 r hr)
    simp only [Bool.and_eq_true, decide_eq_true_eq, matchesBase,
      classFilterOk, districtFilterOk, Bool.and_true]
    rw [mem_dateRange]
    constructor
    · rintro ⟨⟨hb1, hb2⟩, hbox, hbucket⟩
      exact ⟨h2.mp hbucket, h1.mp ⟨hb1, hb2⟩, hbox⟩
    · rintro ⟨hkey, htime, hbox⟩
      exact ⟨⟨(h1.mpr htime).1, (h1.mpr htime).2⟩, hbox, h2.mpr hkey⟩

/-- Counterexample to C4's sum clause as stated: a single in-box
healthy-maize record from 6pm of the previous calendar day, with `now` at
noon and `days = 1`: the record's calendar day is among the labels (series
sum `1`) but its timestamp is before the instant `now - 1 day`, so
`class_distribution` does not count it. -/
theorem C4_timeSeries_counterexample :
    (((api_analytics_data [rowYesterday] 43200 1 none
          none).time_series_data.lookup "healthy-maize").getD []).sum = 1 ∧
    lookupCount
        (api_analytics_data [rowYesterday] 43200 1 none
          none).class_distribution "healthy-maize" = 0 := by
  exact ⟨by decide, by decide⟩

/-- Witness for C4 on a store with no fringe records. -/
theorem C4_timeSeries_corrected_witness :
    (((api_analytics_data [rowToday] 43200 1 none
          none).time_series_data.lookup "healthy-maize").getD []).sum =
      lookupCount
        (api_analytics_data [rowToday] 43200 1 none
          none).class_distribution "healthy-maize" :=
  (C4_timeSeries_corrected [rowToday] 43200 1 none none (by decide)
    (by decide)).2.2.2 "healthy-maize" (by decide)

end FawDetect
